import Mathlib

/-!
Shallow embedding of `estimate_daily_settlement` from `src/app.py` of the
daily-settlement-tool repository, together with the session-state wrapper
`show_daily_report`.  Money amounts are modelled as rationals, Python's
`round` (banker's rounding) as `pyRound`, and the process-wide random
stream as an explicit `noise : Nat → ℚ` argument indexed by draw order
(per day: one draw per revenue row, then one per expense row).
-/

set_option autoImplicit false

attribute [local semireducible] Rat.mul Rat.inv Rat.add Rat.sub

namespace DailySettlement

/-- A row of the revenue counterparty master table (`rev_master`). -/
structure RevenueRow where
  company_id : String
  company_name : String
  monthly_base : ℚ
  payment_cycle_days : ℤ
  shipping_fee_rate : ℚ
  seasonal_peak : ℤ
deriving DecidableEq, Repr

/-- A row of the expense counterparty master table (`exp_master`). -/
structure ExpenseRow where
  company_id : String
  company_name : String
  monthly_base : ℚ
  payment_cycle_days : ℤ
  category : String
deriving DecidableEq, Repr

/-- One record appended inside the day loop of `estimate_daily_settlement`
(the Japanese column names 推定収入/運送費収入/収入合計/推定支出/推定損益 are
rendered as the English field names used by the spec). -/
structure DailyEstimate where
  year : ℕ
  month : ℕ
  day : ℕ
  weekday_label : String
  estimated_revenue : ℤ
  shipping_revenue : ℤ
  total_revenue : ℤ
  estimated_expense : ℤ
  estimated_profit : ℤ
deriving DecidableEq, Repr, Inhabited

/-- A row of the returned dataframe: the day-loop record plus the
`累計損益` (cumulative profit) column added by `df["推定損益"].cumsum()`. -/
structure DailyRow extends DailyEstimate where
  cumulative_profit : ℤ
deriving DecidableEq, Repr, Inhabited

/-- Python's built-in `round` on an exact rational: round half to even. -/
def pyRound (q : ℚ) : ℤ :=
  if q - ⌊q⌋ < 1/2 then ⌊q⌋
  else if 1/2 < q - ⌊q⌋ then ⌊q⌋ + 1
  else if ⌊q⌋ % 2 = 0 then ⌊q⌋ else ⌊q⌋ + 1

/-- `calendar.isleap`. -/
def isleap (y : ℕ) : Bool := y % 4 == 0 && (y % 100 != 0 || y % 400 == 0)

/-- `calendar.mdays`: day counts per month, index 0 unused. -/
def mdays : List ℕ := [0, 31, 28, 31, 30, 31, 30, 31, 31, 30, 31, 30, 31]

/-- Number of days of month `m` of year `y` (second component of
`calendar.monthrange`). -/
def daysInMonth (y m : ℕ) : ℕ :=
  mdays.getD m 0 + (if m = 2 ∧ isleap y then 1 else 0)

/-- `calendar.monthrange(year, month)[1]` including the exceptions it raises:
`IllegalMonthError` for a month outside 1..12, and the `ValueError` that
`datetime.date` raises for a year outside 1..9999. -/
def monthrange (y m : ℕ) : Except String ℕ :=
  if m < 1 ∨ 12 < m then Except.error "Illegal month number"
  else if y < 1 ∨ 9999 < y then Except.error "year is out of range"
  else Except.ok (daysInMonth y m)

/-- Days in all years before year `y` (as in `datetime.date.toordinal`). -/
def daysBeforeYear (y : ℕ) : ℕ :=
  365 * (y - 1) + (y - 1) / 4 - (y - 1) / 100 + (y - 1) / 400

/-- Days in year `y` before month `m`. -/
def daysBeforeMonth (y m : ℕ) : ℕ :=
  ((List.range m).map (fun i => mdays.getD i 0)).sum +
    (if 2 < m ∧ isleap y then 1 else 0)

/-- `datetime.date(y, m, d).toordinal()`: 0001-01-01 has ordinal 1. -/
def toordinal (y m d : ℕ) : ℕ := daysBeforeYear y + daysBeforeMonth y m + d

/-- `datetime.date(y, m, d).weekday()`: Monday = 0 .. Sunday = 6. -/
def pyWeekday (y m d : ℕ) : ℕ := (toordinal y m d + 6) % 7

/-- The `曜日` column: `["月","火","水","木","金","土","日"][dow]`. -/
def weekdayLabel (dow : ℕ) : String :=
  match dow with
  | 0 => "月" | 1 => "火" | 2 => "水" | 3 => "木" | 4 => "金"
  | 5 => "土" | 6 => "日" | _ => ""

/-- The default seasonal-factor dict assigned when `seasonal_factors is None`. -/
def defaultSeasonalFactors : ℕ → Option ℚ
  | 1 => some (85/100) | 2 => some (88/100) | 3 => some (105/100)
  | 4 => some (95/100) | 5 => some (92/100) | 6 => some (102/100)
  | 7 => some (110/100) | 8 => some (108/100) | 9 => some (98/100)
  | 10 => some 1 | 11 => some (105/100) | 12 => some (115/100)
  | _ => none

/-- `seasonal_factors.get(target_month, 1.0)` after the `None` default:
the season factor actually used by the source. -/
def seasonFactorOf (sf : Option (ℕ → Option ℚ)) (m : ℕ) : ℚ :=
  ((sf.getD defaultSeasonalFactors) m).getD 1

/-- The inner revenue loop of `estimate_daily_settlement`: accumulates
`(daily_revenue, daily_shipping)` over the revenue rows, drawing noise
samples at consecutive stream indices starting at `j`. -/
def revLoop (D sf infl df : ℚ) (m : ℕ) (noise : ℕ → ℚ) :
    List RevenueRow → ℕ → ℚ × ℚ
  | [], _ => (0, 0)
  | comp :: rest, j =>
    let base := comp.monthly_base / D
    let peak_bonus : ℚ := if comp.seasonal_peak = (m : ℤ) then 12/10 else 1
    let rev := base * sf * infl * df * peak_bonus * noise j
    let ship := rev * comp.shipping_fee_rate
    let tail := revLoop D sf infl df m noise rest (j + 1)
    (rev + tail.1, ship + tail.2)

/-- The inner expense loop: accumulates `daily_expense`, drawing noise at
consecutive stream indices starting at `j`. -/
def expLoop (D sf infl df : ℚ) (noise : ℕ → ℚ) :
    List ExpenseRow → ℕ → ℚ
  | [], _ => 0
  | comp :: rest, j =>
    let base := comp.monthly_base / D
    let e := base * sf * infl * df * noise j
    e + expLoop D sf infl df noise rest (j + 1)

/-- The body of one iteration of the day loop: builds the record appended to
`records` for calendar day `day` (1-based).  The noise stream indices for
this day start at `(day-1) * (|rev|+|exp|)`: revenue draws first, then
expense draws, matching the source's sequential draws. -/
def buildRecord (y m D : ℕ) (sf infl : ℚ) (rm : List RevenueRow)
    (em : List ExpenseRow) (noise : ℕ → ℚ) (day : ℕ) : DailyEstimate :=
  let dow := pyWeekday y m day
  let day_factor : ℚ := if dow < 5 then 1 else 3/10
  let idx0 := (day - 1) * (rm.length + em.length)
  let rs := revLoop (D : ℚ) sf infl day_factor m noise rm idx0
  let daily_expense := expLoop (D : ℚ) sf infl day_factor noise em (idx0 + rm.length)
  { year := y, month := m, day := day,
    weekday_label := weekdayLabel dow,
    estimated_revenue := pyRound rs.1,
    shipping_revenue := pyRound rs.2,
    total_revenue := pyRound (rs.1 + rs.2),
    estimated_expense := pyRound daily_expense,
    estimated_profit := pyRound (rs.1 + rs.2 - daily_expense) }

/-- `df["推定損益"].cumsum()` fused with the row construction: attaches the
running total `acc + profit` to each record in order. -/
def attachAux : List DailyEstimate → ℤ → List DailyRow
  | [], _ => []
  | r :: rs, acc =>
    let c := acc + r.estimated_profit
    { toDailyEstimate := r, cumulative_profit := c } :: attachAux rs c

/-- Adds the `累計損益` column (running total starting at 0). -/
def attachCumulative (recs : List DailyEstimate) : List DailyRow :=
  attachAux recs 0

/-- `estimate_daily_settlement` from `src/app.py` lines 44-83.  The noise
stream replaces `np.random.normal`; each draw is taken at the next stream
index in the source's draw order. -/
def estimate_daily_settlement (rev_master : List RevenueRow)
    (exp_master : List ExpenseRow) (target_year target_month : ℕ)
    (inflation_rate : ℚ) (seasonal_factors : Option (ℕ → Option ℚ))
    (noise : ℕ → ℚ) : Except String (List DailyRow) :=
  match monthrange target_year target_month with
  | Except.error e => Except.error e
  | Except.ok days_in_month =>
    let season_factor := seasonFactorOf seasonal_factors target_month
    let inflation_factor := 1 + inflation_rate
    let records := (List.range days_in_month).map (fun k =>
      buildRecord target_year target_month days_in_month season_factor
        inflation_factor rev_master exp_master noise (k + 1))
    Except.ok (attachCumulative records)

/-- The relevant slice of `st.session_state`: the two master tables and the
last stored estimation result. -/
structure SessionState where
  rev_master : List RevenueRow
  exp_master : List ExpenseRow
  daily_result : Option (List DailyRow)
deriving DecidableEq

/-- `show_daily_report` lines 151-157: calls the estimator on the session's
master tables and stores the resulting dataframe in
`st.session_state.daily_result`.  No statement of the source assigns to
`rev_master` or `exp_master`; on an exception the session is unchanged. -/
def show_daily_report (s : SessionState) (y m : ℕ) (infl : ℚ)
    (sf : Option (ℕ → Option ℚ)) (noise : ℕ → ℚ) : SessionState :=
  match estimate_daily_settlement s.rev_master s.exp_master y m infl sf noise with
  | Except.ok df => { s with daily_result := some df }
  | Except.error _ => s

/-! Concrete inputs used to instantiate the claims. -/

/-- A deterministic noise stub: every draw returns 1. -/
def oneNoise : ℕ → ℚ := fun _ => 1

/-- Revenue row whose daily contribution is 0.4 under `c1Noise`, chosen to
exhibit the rounding off-by-one. -/
def c1RevRow : RevenueRow :=
  { company_id := "R001", company_name := "Rev01", monthly_base := 31,
    payment_cycle_days := 30, shipping_fee_rate := 1, seasonal_peak := 2 }

/-- Caller-supplied seasonal factors with January pinned to 1. -/
def c1Factors : ℕ → Option ℚ := fun k => if k = 1 then some 1 else none

/-- A noise stream fixed at 0.4. -/
def c1Noise : ℕ → ℚ := fun _ => 2/5

/-- January 2024 run exhibiting `round(r+s) ≠ round(r)+round(s)`. -/
def c1Output : Except String (List DailyRow) :=
  estimate_daily_settlement [c1RevRow] [] 2024 1 0 (some c1Factors) c1Noise

/-- The rows of `c1Output`. -/
def c1List : List DailyRow := c1Output.toOption.getD []

/-- The first row (2024-01-01, a Monday) of `c1Output`. -/
def c1FirstRow : DailyRow := c1List.headI

/-- Revenue row with `monthly_base` divisible by 29, so that the February
2024 daily base is the exact integer 100000. -/
def c2RevRow : RevenueRow :=
  { company_id := "R001", company_name := "Rev01", monthly_base := 2900000,
    payment_cycle_days := 30, shipping_fee_rate := 0, seasonal_peak := 1 }

/-- A caller-supplied seasonal mapping that omits every month. -/
def c2Omitting : ℕ → Option ℚ := fun _ => none

/-- February 2024 run with the omitting custom mapping. -/
def c2OutputCustom : Except String (List DailyRow) :=
  estimate_daily_settlement [c2RevRow] [] 2024 2 0 (some c2Omitting) oneNoise

/-- February 2024 run with no mapping supplied at all (full default table). -/
def c2OutputDefault : Except String (List DailyRow) :=
  estimate_daily_settlement [c2RevRow] [] 2024 2 0 none oneNoise

/-- The revenue row of the spec's worked example (§8): `monthly_base`
3000000, no shipping, `seasonal_peak` January. -/
def c3RevRow : RevenueRow :=
  { company_id := "R001", company_name := "Rev01", monthly_base := 3000000,
    payment_cycle_days := 30, shipping_fee_rate := 0, seasonal_peak := 1 }

/-- The spec example's seasonal factors: month 2 maps to 0.88. -/
def c3Factors : ℕ → Option ℚ := fun k => if k = 2 then some (88/100) else none

/-- The spec example run: February 2024, zero inflation, noise fixed at 1. -/
def c3Output : Except String (List DailyRow) :=
  estimate_daily_settlement [c3RevRow] [] 2024 2 0 (some c3Factors) oneNoise

/-- The rows of `c3Output`. -/
def c3List : List DailyRow := c3Output.toOption.getD []

/-- Revenue row with an out-of-range `shipping_fee_rate` of 2. -/
def c8RevRow : RevenueRow :=
  { company_id := "R001", company_name := "Rev01", monthly_base := 2900000,
    payment_cycle_days := 30, shipping_fee_rate := 2, seasonal_peak := 1 }

/-- Seasonal factors pinning February to 1, isolating the fee rate. -/
def c8Factors : ℕ → Option ℚ := fun k => if k = 2 then some 1 else none

/-- February 2024 run feeding the out-of-range rate to the estimator. -/
def c8Output : Except String (List DailyRow) :=
  estimate_daily_settlement [c8RevRow] [] 2024 2 0 (some c8Factors) oneNoise

/-- A revenue row differing from `c3RevRow` only in `payment_cycle_days`. -/
def c9RevRow : RevenueRow := { c3RevRow with payment_cycle_days := 60 }

/-- An expense row. -/
def c9ExpRow : ExpenseRow :=
  { company_id := "E001", company_name := "Exp01", monthly_base := 1000000,
    payment_cycle_days := 30, category := "fuel" }

/-- An expense row differing from `c9ExpRow` only in `payment_cycle_days`
and `category`. -/
def c9ExpRowB : ExpenseRow :=
  { c9ExpRow with payment_cycle_days := 45, category := "labor" }

/-- A session state holding the spec example's tables. -/
def c10State : SessionState :=
  { rev_master := [c3RevRow], exp_master := [c9ExpRow], daily_result := none }

end DailySettlement

/-! Helper lemmas. -/

namespace DailySettlement

/-- Banker's rounding is within a half of its argument. -/
theorem abs_pyRound_sub_le_half (q : ℚ) : |(pyRound q : ℚ) - q| ≤ 1/2 := by
  have h0 : ((⌊q⌋ : ℤ) : ℚ) ≤ q := Int.floor_le q
  have h1 : q < ⌊q⌋ + 1 := Int.lt_floor_add_one q
  unfold pyRound
  split_ifs with ha hb hc
  · rw [abs_le]; constructor <;> linarith
  · rw [abs_le]; constructor <;> push_cast <;> linarith
  · rw [abs_le]; constructor <;> linarith
  · rw [abs_le]; constructor <;> push_cast <;> linarith

/-- An integer of absolute rational value at most 3/2 has absolute value at
most 1. -/
theorem int_abs_le_one_of_cast {n : ℤ} (h : |(n : ℚ)| ≤ 3/2) : |n| ≤ 1 := by
  have h2 : |n| < 2 := by
    have hc : ((|n| : ℤ) : ℚ) < 2 := by
      rw [Int.cast_abs]
      exact lt_of_le_of_lt h (by norm_num)
    exact_mod_cast hc
  omega

/-- Rounding a sum is within 1 of the sum of the roundings. -/
theorem pyRound_add_within_one (x y : ℚ) :
    |pyRound (x + y) - (pyRound x + pyRound y)| ≤ 1 := by
  have hx := abs_pyRound_sub_le_half x
  have hy := abs_pyRound_sub_le_half y
  have hz := abs_pyRound_sub_le_half (x + y)
  rw [abs_le] at hx hy hz
  apply int_abs_le_one_of_cast
  rw [abs_le]
  constructor <;> push_cast <;> linarith [hx.1, hx.2, hy.1, hy.2, hz.1, hz.2]

/-- Rounding a difference is within 1 of the difference of the roundings. -/
theorem pyRound_sub_within_one (x y : ℚ) :
    |pyRound (x - y) - (pyRound x - pyRound y)| ≤ 1 := by
  have hx := abs_pyRound_sub_le_half x
  have hy := abs_pyRound_sub_le_half y
  have hz := abs_pyRound_sub_le_half (x - y)
  rw [abs_le] at hx hy hz
  apply int_abs_le_one_of_cast
  rw [abs_le]
  constructor <;> push_cast <;> linarith [hx.1, hx.2, hy.1, hy.2, hz.1, hz.2]

/-- `pyRound` fixes 0. -/
theorem pyRound_zero : pyRound 0 = 0 := by decide

/-- `attachAux` preserves the number of rows. -/
theorem attachAux_length (recs : List DailyEstimate) (acc : ℤ) :
    (attachAux recs acc).length = recs.length := by
  induction recs generalizing acc with
  | nil => rfl
  | cons r rs ih => simp [attachAux, ih]

/-- Every attached row comes from the underlying record list. -/
theorem mem_attachAux {x : DailyRow} (recs : List DailyEstimate) (acc : ℤ)
    (hx : x ∈ attachAux recs acc) : x.toDailyEstimate ∈ recs := by
  induction recs generalizing acc with
  | nil => simp [attachAux] at hx
  | cons r rs ih =>
    simp only [attachAux, List.mem_cons] at hx ⊢
    rcases hx with h | h
    · left; rw [h]
    · right; exact ih _ h

/-- `attachAux` does not change the per-day profit column. -/
theorem attachAux_map_profit (recs : List DailyEstimate) (acc : ℤ) :
    (attachAux recs acc).map (fun x => x.estimated_profit) =
      recs.map (fun r => r.estimated_profit) := by
  induction recs generalizing acc with
  | nil => rfl
  | cons r rs ih => simp [attachAux, ih]

/-- The record part of the `i`-th attached row is the `i`-th record. -/
theorem attachAux_get_est (recs : List DailyEstimate) (acc : ℤ) (i : ℕ)
    (h : i < (attachAux recs acc).length) :
    ((attachAux recs acc).get ⟨i, h⟩).toDailyEstimate =
      recs.get ⟨i, by rw [← attachAux_length recs acc]; exact h⟩ := by
  induction recs generalizing acc i with
  | nil => simp [attachAux] at h
  | cons r rs ih =>
    cases i with
    | zero => rfl
    | succ n => exact ih (acc + r.estimated_profit) n _

/-- The cumulative column of the `i`-th attached row is the accumulator
plus the inclusive prefix sum of the profits. -/
theorem attachAux_get_cum (recs : List DailyEstimate) (acc : ℤ) (i : ℕ)
    (h : i < (attachAux recs acc).length) :
    ((attachAux recs acc).get ⟨i, h⟩).cumulative_profit =
      acc + ((recs.take (i + 1)).map (fun r => r.estimated_profit)).sum := by
  induction recs generalizing acc i with
  | nil => simp [attachAux] at h
  | cons r rs ih =>
    cases i with
    | zero => simp [attachAux]
    | succ n =>
      have hn : n < (attachAux rs (acc + r.estimated_profit)).length := by
        simpa [attachAux] using h
      have := ih (acc + r.estimated_profit) n hn
      simp only [attachAux, List.get_cons_succ, List.take_succ_cons,
        List.map_cons, List.sum_cons] at this ⊢
      rw [this]
      ring

end DailySettlement

namespace DailySettlement

/-- The record list produced for a valid `(year, month)` pair. -/
def monthRecords (rm : List RevenueRow) (em : List ExpenseRow) (y m : ℕ)
    (infl : ℚ) (sf : Option (ℕ → Option ℚ)) (noise : ℕ → ℚ) :
    List DailyEstimate :=
  (List.range (daysInMonth y m)).map (fun k =>
    buildRecord y m (daysInMonth y m) (seasonFactorOf sf m) (1 + infl)
      rm em noise (k + 1))

/-- On a valid year and month the estimator returns the attached record
list. -/
theorem estimate_eq_of_valid (rm : List RevenueRow) (em : List ExpenseRow)
    (y m : ℕ) (infl : ℚ) (sf : Option (ℕ → Option ℚ)) (noise : ℕ → ℚ)
    (hm1 : 1 ≤ m) (hm2 : m ≤ 12) (hy1 : 1 ≤ y) (hy2 : y ≤ 9999) :
    estimate_daily_settlement rm em y m infl sf noise =
      Except.ok (attachCumulative (monthRecords rm em y m infl sf noise)) := by
  unfold estimate_daily_settlement monthrange monthRecords
  have h1 : ¬(m < 1 ∨ 12 < m) := by omega
  have h2 : ¬(y < 1 ∨ 9999 < y) := by omega
  rw [if_neg h1, if_neg h2]

/-- A successful run is the attached record list of some valid month. -/
theorem estimate_ok_elim {rm : List RevenueRow} {em : List ExpenseRow}
    {y m : ℕ} {infl : ℚ} {sf : Option (ℕ → Option ℚ)} {noise : ℕ → ℚ}
    {l : List DailyRow}
    (h : estimate_daily_settlement rm em y m infl sf noise = Except.ok l) :
    l = attachCumulative (monthRecords rm em y m infl sf noise) := by
  unfold estimate_daily_settlement monthrange at h
  unfold monthRecords
  split_ifs at h with h1 h2
  cases h
  rfl

/-- A failed run returns an error exactly when the month or year is out of
range. -/
theorem estimate_error_iff (rm : List RevenueRow) (em : List ExpenseRow)
    (y m : ℕ) (infl : ℚ) (sf : Option (ℕ → Option ℚ)) (noise : ℕ → ℚ) :
    (∃ e, estimate_daily_settlement rm em y m infl sf noise = Except.error e)
      ↔ (m < 1 ∨ 12 < m ∨ y < 1 ∨ 9999 < y) := by
  unfold estimate_daily_settlement monthrange
  split_ifs with h1 h2
  · simp only [exists_eq_left]
    constructor
    · intro _; omega
    · intro _; exact ⟨_, rfl⟩
  · constructor
    · intro _; omega
    · intro _; exact ⟨_, rfl⟩
  · constructor
    · rintro ⟨e, he⟩; cases he
    · intro h; omega

/-- Field values of a built record. -/
theorem buildRecord_day (y m D : ℕ) (sf infl : ℚ) (rm : List RevenueRow)
    (em : List ExpenseRow) (noise : ℕ → ℚ) (day : ℕ) :
    (buildRecord y m D sf infl rm em noise day).day = day := rfl

/-- The year field of a built record. -/
theorem buildRecord_year (y m D : ℕ) (sf infl : ℚ) (rm : List RevenueRow)
    (em : List ExpenseRow) (noise : ℕ → ℚ) (day : ℕ) :
    (buildRecord y m D sf infl rm em noise day).year = y := rfl

/-- The month field of a built record. -/
theorem buildRecord_month (y m D : ℕ) (sf infl : ℚ) (rm : List RevenueRow)
    (em : List ExpenseRow) (noise : ℕ → ℚ) (day : ℕ) :
    (buildRecord y m D sf infl rm em noise day).month = m := rfl

/-- Length of the record list of a month. -/
theorem monthRecords_length (rm : List RevenueRow) (em : List ExpenseRow)
    (y m : ℕ) (infl : ℚ) (sf : Option (ℕ → Option ℚ)) (noise : ℕ → ℚ) :
    (monthRecords rm em y m infl sf noise).length = daysInMonth y m := by
  unfold monthRecords
  rw [List.length_map, List.length_range]

/-- The `i`-th record of a month is built for day `i + 1`. -/
theorem monthRecords_get (rm : List RevenueRow) (em : List ExpenseRow)
    (y m : ℕ) (infl : ℚ) (sf : Option (ℕ → Option ℚ)) (noise : ℕ → ℚ)
    (i : ℕ) (h : i < (monthRecords rm em y m infl sf noise).length) :
    (monthRecords rm em y m infl sf noise).get ⟨i, h⟩ =
      buildRecord y m (daysInMonth y m) (seasonFactorOf sf m) (1 + infl)
        rm em noise (i + 1) := by
  simp [monthRecords, List.get_eq_getElem]

end DailySettlement

namespace DailySettlement

/-- The revenue loop depends only on `monthly_base`, `shipping_fee_rate`
and `seasonal_peak` of each row. -/
theorem revLoop_congr (D sf infl df : ℚ) (m : ℕ) (noise : ℕ → ℚ) :
    ∀ (rm1 rm2 : List RevenueRow),
      rm1.map (fun c => (c.monthly_base, c.shipping_fee_rate, c.seasonal_peak)) =
        rm2.map (fun c => (c.monthly_base, c.shipping_fee_rate, c.seasonal_peak)) →
      ∀ j, revLoop D sf infl df m noise rm1 j = revLoop D sf infl df m noise rm2 j := by
  intro rm1
  induction rm1 with
  | nil =>
    intro rm2 hr j
    cases rm2 with
    | nil => rfl
    | cons b bs => simp at hr
  | cons a as ih =>
    intro rm2 hr j
    cases rm2 with
    | nil => simp at hr
    | cons b bs =>
      simp only [List.map_cons, List.cons.injEq, Prod.mk.injEq] at hr
      obtain ⟨⟨h1, h2, h3⟩, htl⟩ := hr
      simp only [revLoop]
      rw [h1, h2, h3, ih bs htl (j + 1)]

/-- The expense loop depends only on `monthly_base` of each row. -/
theorem expLoop_congr (D sf infl df : ℚ) (noise : ℕ → ℚ) :
    ∀ (em1 em2 : List ExpenseRow),
      em1.map (fun c => c.monthly_base) = em2.map (fun c => c.monthly_base) →
      ∀ j, expLoop D sf infl df noise em1 j = expLoop D sf infl df noise em2 j := by
  intro em1
  induction em1 with
  | nil =>
    intro em2 he j
    cases em2 with
    | nil => rfl
    | cons b bs => simp at he
  | cons a as ih =>
    intro em2 he j
    cases em2 with
    | nil => simp at he
    | cons b bs =>
      simp only [List.map_cons, List.cons.injEq] at he
      obtain ⟨h1, htl⟩ := he
      simp only [expLoop]
      rw [h1, ih bs htl (j + 1)]

end DailySettlement

namespace DailySettlement

/-- Length of the attached row list. -/
theorem attachCumulative_length (recs : List DailyEstimate) :
    (attachCumulative recs).length = recs.length :=
  attachAux_length recs 0

/-- The record part of the `i`-th output row. -/
theorem attachCumulative_get_est (recs : List DailyEstimate) (i : ℕ)
    (h : i < (attachCumulative recs).length) :
    ((attachCumulative recs).get ⟨i, h⟩).toDailyEstimate =
      recs.get ⟨i, by rw [← attachCumulative_length recs]; exact h⟩ :=
  attachAux_get_est recs 0 i h

/-- The cumulative column of the `i`-th output row is the inclusive prefix
sum of the profit column. -/
theorem attachCumulative_get_cum (recs : List DailyEstimate) (i : ℕ)
    (h : i < (attachCumulative recs).length) :
    ((attachCumulative recs).get ⟨i, h⟩).cumulative_profit =
      ((recs.take (i + 1)).map (fun r => r.estimated_profit)).sum := by
  have := attachAux_get_cum recs 0 i h
  simpa using this

/-- C1 (amended): for every row of the estimator's output, the rounded
integer fields satisfy the two identities only within an absolute error of
1: `|total_revenue - (estimated_revenue + shipping_revenue)| ≤ 1` and
`|estimated_profit - (total_revenue - estimated_expense)| ≤ 1`, because
each money field is rounded independently from its own rational value. -/
theorem c1_rounding_identities_within_one
    (rm : List RevenueRow) (em : List ExpenseRow) (y m : ℕ) (infl : ℚ)
    (sf : Option (ℕ → Option ℚ)) (noise : ℕ → ℚ) (l : List DailyRow)
    (h : estimate_daily_settlement rm em y m infl sf noise = Except.ok l)
    (r : DailyRow) (hr : r ∈ l) :
    |r.total_revenue - (r.estimated_revenue + r.shipping_revenue)| ≤ 1 ∧
    |r.estimated_profit - (r.total_revenue - r.estimated_expense)| ≤ 1 := by
  obtain rfl := estimate_ok_elim h
  have hmem : r.toDailyEstimate ∈ monthRecords rm em y m infl sf noise :=
    mem_attachAux _ _ hr
  unfold monthRecords at hmem
  rw [List.mem_map] at hmem
  obtain ⟨k, hk, hEq⟩ := hmem
  have h1 : r.toDailyEstimate.total_revenue = r.total_revenue := rfl
  rw [← hEq]
  simp only [buildRecord]
  exact ⟨pyRound_add_within_one _ _, pyRound_sub_within_one _ _⟩

/-- C1 counterexample: in the January 2024 run `c1Output` (one revenue
counterparty, shipping rate 1, noise fixed at 0.4) the first row has
`total_revenue = 1` but `estimated_revenue + shipping_revenue = 0`, so the
claimed exact identity `total_revenue == estimated_revenue +
shipping_revenue` fails. -/
theorem c1_rounding_identity_counterexample :
    c1Output = Except.ok c1List ∧
    c1List.head? = some c1FirstRow ∧
    c1FirstRow.total_revenue = 1 ∧
    c1FirstRow.estimated_revenue + c1FirstRow.shipping_revenue = 0 :=
  ⟨rfl, rfl, rfl, rfl⟩

/-- C1 witness: the amended bound instantiated at the first row of the
concrete January 2024 run. -/
theorem c1_rounding_identities_within_one_witness :
    |c1FirstRow.total_revenue -
        (c1FirstRow.estimated_revenue + c1FirstRow.shipping_revenue)| ≤ 1 ∧
    |c1FirstRow.estimated_profit -
        (c1FirstRow.total_revenue - c1FirstRow.estimated_expense)| ≤ 1 :=
  c1_rounding_identities_within_one [c1RevRow] [] 2024 1 0 (some c1Factors)
    c1Noise c1List rfl c1FirstRow (by decide)

/-- C4: for every invocation with a month outside 1..12 or a year outside
the calendar range 1..9999, the estimator fails with an error and produces
no rows. -/
theorem c4_invalid_month_year_errors
    (rm : List RevenueRow) (em : List ExpenseRow) (y m : ℕ) (infl : ℚ)
    (sf : Option (ℕ → Option ℚ)) (noise : ℕ → ℚ)
    (h : m < 1 ∨ 12 < m ∨ y < 1 ∨ 9999 < y) :
    ∃ e, estimate_daily_settlement rm em y m infl sf noise = Except.error e :=
  (estimate_error_iff rm em y m infl sf noise).mpr h

/-- C4 witness: month 13 raises the error. -/
theorem c4_invalid_month_year_errors_witness :
    ∃ e, estimate_daily_settlement [c3RevRow] [] 2024 13 0 none oneNoise =
      Except.error e :=
  c4_invalid_month_year_errors [c3RevRow] [] 2024 13 0 none oneNoise (by omega)

/-- C5: for every valid (year, month) and any tables, the output has
exactly `daysInMonth` rows and row `i` is the day `i + 1` of that month:
dates are ascending with no gaps or duplicates, from day 1 to the last
day. -/
theorem c5_month_rows_consecutive
    (rm : List RevenueRow) (em : List ExpenseRow) (y m : ℕ) (infl : ℚ)
    (sf : Option (ℕ → Option ℚ)) (noise : ℕ → ℚ)
    (hm1 : 1 ≤ m) (hm2 : m ≤ 12) (hy1 : 1 ≤ y) (hy2 : y ≤ 9999) :
    ∃ l, estimate_daily_settlement rm em y m infl sf noise = Except.ok l ∧
      l.length = daysInMonth y m ∧
      ∀ i (hi : i < l.length),
        (l.get ⟨i, hi⟩).year = y ∧ (l.get ⟨i, hi⟩).month = m ∧
        (l.get ⟨i, hi⟩).day = i + 1 := by
  refine ⟨_, estimate_eq_of_valid rm em y m infl sf noise hm1 hm2 hy1 hy2,
    ?_, ?_⟩
  · rw [attachCumulative_length, monthRecords_length]
  · intro i hi
    have hi2 : i < (monthRecords rm em y m infl sf noise).length := by
      rw [← attachCumulative_length]; exact hi
    have hg := attachCumulative_get_est (monthRecords rm em y m infl sf noise) i hi
    rw [monthRecords_get rm em y m infl sf noise i hi2] at hg
    refine ⟨?_, ?_, ?_⟩
    · show ((attachCumulative _).get ⟨i, hi⟩).toDailyEstimate.year = y
      rw [hg]; exact buildRecord_year y m _ _ _ rm em noise _
    · show ((attachCumulative _).get ⟨i, hi⟩).toDailyEstimate.month = m
      rw [hg]; exact buildRecord_month y m _ _ _ rm em noise _
    · show ((attachCumulative _).get ⟨i, hi⟩).toDailyEstimate.day = i + 1
      rw [hg]; exact buildRecord_day y m _ _ _ rm em noise _

/-- C5 witness: February 2024 yields 29 consecutive rows. -/
theorem c5_month_rows_consecutive_witness :
    ∃ l, estimate_daily_settlement [c3RevRow] [] 2024 2 0 (some c3Factors)
        oneNoise = Except.ok l ∧
      l.length = daysInMonth 2024 2 ∧
      ∀ i (hi : i < l.length),
        (l.get ⟨i, hi⟩).year = 2024 ∧ (l.get ⟨i, hi⟩).month = 2 ∧
        (l.get ⟨i, hi⟩).day = i + 1 :=
  c5_month_rows_consecutive [c3RevRow] [] 2024 2 0 (some c3Factors) oneNoise
    (by omega) (by omega) (by omega) (by omega)

end DailySettlement

namespace DailySettlement

/-- `attachCumulative` does not change the per-day profit column. -/
theorem attachCumulative_map_profit (recs : List DailyEstimate) :
    (attachCumulative recs).map (fun x => x.estimated_profit) =
      recs.map (fun r => r.estimated_profit) :=
  attachAux_map_profit recs 0

/-- C2 (amended): when a caller-supplied `seasonal_factors` mapping omits
the target month, the season factor used is the constant 1.0 (the dict
`.get` default) — supplying 1.0 explicitly for that month gives the
identical output — not the built-in default table's value for that
month. -/
theorem c2_seasonal_fallback_is_one
    (rm : List RevenueRow) (em : List ExpenseRow) (y m : ℕ) (infl : ℚ)
    (noise : ℕ → ℚ) (f : ℕ → Option ℚ) (hf : f m = none) :
    seasonFactorOf (some f) m = 1 ∧
    estimate_daily_settlement rm em y m infl (some f) noise =
      estimate_daily_settlement rm em y m infl
        (some (fun k => if k = m then some 1 else f k)) noise := by
  have hsf : seasonFactorOf (some f) m = 1 := by
    simp [seasonFactorOf, hf]
  have hsf2 : seasonFactorOf (some (fun k => if k = m then some 1 else f k)) m = 1 := by
    simp [seasonFactorOf]
  refine ⟨hsf, ?_⟩
  unfold estimate_daily_settlement
  rw [hsf, hsf2]

/-- C2 counterexample: February 2024, one counterparty with base 2900000
and noise 1.  Under a custom mapping omitting month 2, the first row's
revenue is `round(2900000/29 * 1.0) = 100000`; the built-in default table
(0.88 for February, used when no mapping is supplied) would give 88000, so
the omitted month does not fall back to the default table. -/
theorem c2_seasonal_fallback_counterexample :
    c2Omitting 2 = none ∧
    (c2OutputCustom.toOption.getD []).headI.estimated_revenue = 100000 ∧
    (c2OutputDefault.toOption.getD []).headI.estimated_revenue = 88000 ∧
    defaultSeasonalFactors 2 = some (88/100) ∧
    pyRound (2900000/29 * (88/100)) = 88000 ∧
    (100000 : ℤ) ≠ 88000 :=
  ⟨rfl, rfl, rfl, rfl, by decide, by decide⟩

/-- C2 witness: the fallback theorem instantiated at the concrete omitting
mapping. -/
theorem c2_seasonal_fallback_is_one_witness :
    seasonFactorOf (some c2Omitting) 2 = 1 ∧
    estimate_daily_settlement [c2RevRow] [] 2024 2 0 (some c2Omitting)
        oneNoise =
      estimate_daily_settlement [c2RevRow] [] 2024 2 0
        (some (fun k => if k = 2 then some 1 else c2Omitting k)) oneNoise :=
  c2_seasonal_fallback_is_one [c2RevRow] [] 2024 2 0 oneNoise c2Omitting rfl

/-- C3 counterexample: in the spec's worked example the counterparty's
`seasonal_peak` is January but the target month is February, so the code
applies peak bonus 1.0, not 1.2: the first row (2024-02-01, a weekday) has
`estimated_revenue = 91034`, not `round(3000000/29*0.88*1*1*1.2) =
109241` as the claim states. -/
theorem c3_spec_example_counterexample :
    c3Output = Except.ok c3List ∧
    c3List.headI.day = 1 ∧ pyWeekday 2024 2 1 < 5 ∧
    c3List.headI.estimated_revenue = 91034 ∧
    pyRound (3000000/29 * (88/100) * 1 * 1 * (12/10)) = 109241 ∧
    c3List.headI.estimated_revenue ≠
      pyRound (3000000/29 * (88/100) * 1 * 1 * (12/10)) :=
  ⟨rfl, rfl, by decide, rfl, by decide, by decide⟩

/-- C3 (amended): the spec example run yields 29 rows; each weekday row's
`estimated_revenue` equals `round(3000000/29 * 0.88 * 1 * 1 * 1.0)` (the
peak bonus is 1.0 because `seasonal_peak` 1 differs from month 2), and
each weekend row's value has the additional 0.3 factor applied before
rounding. -/
theorem c3_spec_example_amended :
    c3Output = Except.ok c3List ∧ c3List.length = 29 ∧
    ∀ r ∈ c3List,
      (pyWeekday 2024 2 r.day < 5 →
        r.estimated_revenue = pyRound (3000000/29 * (88/100) * 1 * 1 * 1)) ∧
      (¬pyWeekday 2024 2 r.day < 5 →
        r.estimated_revenue =
          pyRound (3000000/29 * (88/100) * 1 * 1 * 1 * (3/10))) :=
  ⟨rfl, rfl, by decide⟩

/-- C6: the `cumulative_profit` of every output row is the inclusive
running sum of `estimated_profit` up to that row, and the last row's value
is the total over the whole output. -/
theorem c6_cumulative_is_running_sum
    (rm : List RevenueRow) (em : List ExpenseRow) (y m : ℕ) (infl : ℚ)
    (sf : Option (ℕ → Option ℚ)) (noise : ℕ → ℚ) (l : List DailyRow)
    (h : estimate_daily_settlement rm em y m infl sf noise = Except.ok l) :
    (∀ i (hi : i < l.length),
      (l.get ⟨i, hi⟩).cumulative_profit =
        ((l.take (i + 1)).map (fun r => r.estimated_profit)).sum) ∧
    ∀ hne : l ≠ [], (l.getLast hne).cumulative_profit =
      (l.map (fun r => r.estimated_profit)).sum := by
  obtain rfl := estimate_ok_elim h
  have hmain : ∀ i (hi : i <
      (attachCumulative (monthRecords rm em y m infl sf noise)).length),
      ((attachCumulative (monthRecords rm em y m infl sf noise)).get
          ⟨i, hi⟩).cumulative_profit =
        (((attachCumulative (monthRecords rm em y m infl sf noise)).take
            (i + 1)).map (fun r => r.estimated_profit)).sum := by
    intro i hi
    have hswap : ((attachCumulative (monthRecords rm em y m infl sf noise)).take
        (i + 1)).map (fun r => r.estimated_profit) =
        ((monthRecords rm em y m infl sf noise).take (i + 1)).map
          (fun r => r.estimated_profit) := by
      rw [List.map_take, List.map_take, attachCumulative_map_profit]
    rw [attachCumulative_get_cum _ i hi, hswap]
  refine ⟨hmain, ?_⟩
  intro hne
  have hpos : 0 <
      (attachCumulative (monthRecords rm em y m infl sf noise)).length :=
    List.length_pos.mpr hne
  have hlt : (attachCumulative (monthRecords rm em y m infl sf noise)).length
      - 1 <
      (attachCumulative (monthRecords rm em y m infl sf noise)).length := by
    omega
  rw [List.getLast_eq_get, hmain _ hlt, Nat.sub_add_cancel hpos,
    List.take_length]

/-- C6 witness: the running-sum property at row index 4 of the concrete
February 2024 run. -/
theorem c6_cumulative_is_running_sum_witness :
    (c3List.get ⟨4, by decide⟩).cumulative_profit =
      ((c3List.take 5).map (fun r => r.estimated_profit)).sum :=
  (c6_cumulative_is_running_sum [c3RevRow] [] 2024 2 0 (some c3Factors)
    oneNoise c3List rfl).1 4 (by decide)

/-- C7: empty revenue and expense tables are not an error: the estimator
returns a full month of rows whose revenue, expense and profit columns are
all exactly 0. -/
theorem c7_empty_tables_zero_rows
    (y m : ℕ) (infl : ℚ) (sf : Option (ℕ → Option ℚ)) (noise : ℕ → ℚ)
    (hm1 : 1 ≤ m) (hm2 : m ≤ 12) (hy1 : 1 ≤ y) (hy2 : y ≤ 9999) :
    ∃ l, estimate_daily_settlement [] [] y m infl sf noise = Except.ok l ∧
      l.length = daysInMonth y m ∧
      ∀ r ∈ l, r.estimated_revenue = 0 ∧ r.estimated_expense = 0 ∧
        r.estimated_profit = 0 := by
  refine ⟨_, estimate_eq_of_valid [] [] y m infl sf noise hm1 hm2 hy1 hy2,
    ?_, ?_⟩
  · rw [attachCumulative_length, monthRecords_length]
  · intro r hr
    have hmem : r.toDailyEstimate ∈ monthRecords [] [] y m infl sf noise :=
      mem_attachAux _ _ hr
    unfold monthRecords at hmem
    rw [List.mem_map] at hmem
    obtain ⟨k, hk, hEq⟩ := hmem
    refine ⟨?_, ?_, ?_⟩
    · show r.toDailyEstimate.estimated_revenue = 0
      rw [← hEq]
      simp only [buildRecord, revLoop]
      norm_num [pyRound_zero]
    · show r.toDailyEstimate.estimated_expense = 0
      rw [← hEq]
      simp only [buildRecord, expLoop]
      norm_num [pyRound_zero]
    · show r.toDailyEstimate.estimated_profit = 0
      rw [← hEq]
      simp only [buildRecord, revLoop, expLoop]
      norm_num [pyRound_zero]

/-- C7 witness: the empty-table run for February 2024. -/
theorem c7_empty_tables_zero_rows_witness :
    ∃ l, estimate_daily_settlement [] [] 2024 2 0 none oneNoise =
        Except.ok l ∧
      l.length = daysInMonth 2024 2 ∧
      ∀ r ∈ l, r.estimated_revenue = 0 ∧ r.estimated_expense = 0 ∧
        r.estimated_profit = 0 :=
  c7_empty_tables_zero_rows 2024 2 0 none oneNoise (by omega) (by omega)
    (by omega) (by omega)

end DailySettlement

namespace DailySettlement

/-- C8 counterexample: a revenue row with `shipping_fee_rate = 2` (outside
[0,1]) is neither rejected nor zeroed: the February 2024 run succeeds and
the first row books a shipping revenue of twice the revenue (200000 on a
100000 revenue), silently incorporating the out-of-range rate into
`total_revenue = 300000`. -/
theorem c8_out_of_range_rate_counterexample :
    c8RevRow.shipping_fee_rate = 2 ∧
    ¬(c8RevRow.shipping_fee_rate ≤ 1) ∧
    c8Output = Except.ok (c8Output.toOption.getD []) ∧
    (c8Output.toOption.getD []).headI.estimated_revenue = 100000 ∧
    (c8Output.toOption.getD []).headI.shipping_revenue = 200000 ∧
    (c8Output.toOption.getD []).headI.total_revenue = 300000 :=
  ⟨rfl, by decide, rfl, rfl, rfl, rfl⟩

/-- C8 (amended): the estimator performs no validation of counterparty
rows at all: for any tables — including rows with an out-of-range
`shipping_fee_rate` — and any valid year and month, the run succeeds with
a full month of rows, the malformed values flowing into the totals
as-is. -/
theorem c8_no_counterparty_validation
    (rm : List RevenueRow) (em : List ExpenseRow) (y m : ℕ) (infl : ℚ)
    (sf : Option (ℕ → Option ℚ)) (noise : ℕ → ℚ)
    (hm1 : 1 ≤ m) (hm2 : m ≤ 12) (hy1 : 1 ≤ y) (hy2 : y ≤ 9999) :
    ∃ l, estimate_daily_settlement rm em y m infl sf noise = Except.ok l ∧
      l.length = daysInMonth y m := by
  refine ⟨_, estimate_eq_of_valid rm em y m infl sf noise hm1 hm2 hy1 hy2, ?_⟩
  rw [attachCumulative_length, monthRecords_length]

/-- C8 witness: the out-of-range-rate table still succeeds with 29 rows. -/
theorem c8_no_counterparty_validation_witness :
    ∃ l, estimate_daily_settlement [c8RevRow] [] 2024 2 0 (some c8Factors)
        oneNoise = Except.ok l ∧ l.length = daysInMonth 2024 2 :=
  c8_no_counterparty_validation [c8RevRow] [] 2024 2 0 (some c8Factors)
    oneNoise (by omega) (by omega) (by omega) (by omega)

/-- C9: two invocations agreeing on everything the arithmetic consumes
(`monthly_base`, `shipping_fee_rate`, `seasonal_peak` of revenue rows and
`monthly_base` of expense rows) — in particular invocations differing only
in `payment_cycle_days` and/or `category` — produce identical outputs. -/
theorem c9_informational_fields_no_influence
    (rm1 rm2 : List RevenueRow) (em1 em2 : List ExpenseRow) (y m : ℕ)
    (infl : ℚ) (sf : Option (ℕ → Option ℚ)) (noise : ℕ → ℚ)
    (hr : rm1.map (fun c => (c.monthly_base, c.shipping_fee_rate, c.seasonal_peak)) =
          rm2.map (fun c => (c.monthly_base, c.shipping_fee_rate, c.seasonal_peak)))
    (he : em1.map (fun c => c.monthly_base) = em2.map (fun c => c.monthly_base)) :
    estimate_daily_settlement rm1 em1 y m infl sf noise =
      estimate_daily_settlement rm2 em2 y m infl sf noise := by
  have hlr : rm1.length = rm2.length := by
    have h := congrArg List.length hr
    simpa using h
  have hle : em1.length = em2.length := by
    have h := congrArg List.length he
    simpa using h
  unfold estimate_daily_settlement
  cases monthrange y m with
  | error e => rfl
  | ok D =>
    show Except.ok _ = Except.ok _
    congr 1
    apply congrArg
    apply List.map_congr_left
    intro k _
    simp only [buildRecord]
    rw [hlr, hle, revLoop_congr _ _ _ _ _ _ rm1 rm2 hr,
      expLoop_congr _ _ _ _ _ em1 em2 he]

/-- C9 witness: changing only `payment_cycle_days` of the revenue row and
`payment_cycle_days`/`category` of the expense row leaves the output
unchanged. -/
theorem c9_informational_fields_no_influence_witness :
    estimate_daily_settlement [c3RevRow] [c9ExpRow] 2024 2 0 (some c3Factors)
        oneNoise =
      estimate_daily_settlement [c9RevRow] [c9ExpRowB] 2024 2 0
        (some c3Factors) oneNoise :=
  c9_informational_fields_no_influence [c3RevRow] [c9RevRow] [c9ExpRow]
    [c9ExpRowB] 2024 2 0 (some c3Factors) oneNoise (by decide) (by decide)

/-- C10: the estimator invocation of `show_daily_report` never modifies
the master tables held in the session state — afterwards they are
element-for-element the ones passed in — and its only output is the
freshly built result sequence stored in `daily_result`. -/
theorem c10_masters_unmodified (s : SessionState) (y m : ℕ) (infl : ℚ)
    (sf : Option (ℕ → Option ℚ)) (noise : ℕ → ℚ) :
    (show_daily_report s y m infl sf noise).rev_master = s.rev_master ∧
    (show_daily_report s y m infl sf noise).exp_master = s.exp_master ∧
    ∀ l, estimate_daily_settlement s.rev_master s.exp_master y m infl sf
        noise = Except.ok l →
      (show_daily_report s y m infl sf noise).daily_result = some l := by
  unfold show_daily_report
  cases h : estimate_daily_settlement s.rev_master s.exp_master y m infl sf
      noise with
  | ok df =>
    refine ⟨rfl, rfl, ?_⟩
    intro l hl
    cases hl
    rfl
  | error e =>
    refine ⟨rfl, rfl, ?_⟩
    intro l hl
    cases hl

/-- C10 witness: the frame property at a concrete session state. -/
theorem c10_masters_unmodified_witness :
    (show_daily_report c10State 2024 2 0 (some c3Factors) oneNoise).rev_master
        = c10State.rev_master ∧
    (show_daily_report c10State 2024 2 0 (some c3Factors) oneNoise).exp_master
        = c10State.exp_master ∧
    ∀ l, estimate_daily_settlement c10State.rev_master c10State.exp_master
        2024 2 0 (some c3Factors) oneNoise = Except.ok l →
      (show_daily_report c10State 2024 2 0 (some c3Factors)
          oneNoise).daily_result = some l :=
  c10_masters_unmodified c10State 2024 2 0 (some c3Factors) oneNoise

end DailySettlement
